import Mathlib

/-!
Shallow embedding of the thermostat control logic of homebridge-thermostat,
taken from src/platformAccessory.ts (the variant the specification lines
refer to).  Temperatures are modelled as rational numbers (the TypeScript
source computes with IEEE doubles; all thresholds and example inputs here
are exactly representable or compared far from the float error margin),
timestamps as integers counting milliseconds on the moment.js timeline.
-/

namespace HomebridgeThermostat

/-- Actuator command issued by one run of the temperature-change handler:
`activate` models `rpio.write(pin, rpio.HIGH)`, `deactivate` models
`rpio.write(pin, rpio.LOW)`. -/
inductive Command where
  | activate
  | deactivate
  deriving DecidableEq, Repr

/-- Outcome of one run of `handleCurrentTemperature`
(platformAccessory.ts:252-292): the pin command, if any, and the local
`lastOff` variable (`none` models leaving it `undefined`). -/
structure Decision where
  command : Option Command
  newLastOff : Option Int
  deriving DecidableEq, Repr

/-- Four minutes on the millisecond timeline, the span built by
`moment().subtract(4, minutes)` in `compressorDelay`. -/
def fourMinutesMs : Int := 240000

/-- From `compressorDelay` (platformAccessory.ts:298-302):
`moment(this.state.LastOff).isAfter(moment().subtract(4, minutes))`,
that is, `lastOff` lies strictly after `now - 4 minutes`. -/
def compressorDelay (lastOff now : Int) : Bool :=
  decide (now - fourMinutesMs < lastOff)

/-- From `handleCurrentTemperature` (platformAccessory.ts:252-292): the
switch on `this.state.TargetHeatingCoolingState`.  `pin` is the value of
`rpio.read(this.pin)` before the handler runs; `lastOff` is the stored
`this.state.LastOff` consulted by `compressorDelay`; `now` is the instant
the handler runs (`moment()`).  Case 0 is Off, case 1 Heating, case 2
Cooling; the default branch (Auto and any other value) only logs. -/
def handleCurrentTemperature (mode : Int) (currentTemperature targetTemperature : ℚ)
    (pin : Bool) (lastOff now : Int) : Decision :=
  if mode = 0 then
    if pin then ⟨some Command.deactivate, some now⟩
    else ⟨none, none⟩
  else if mode = 1 then
    if pin ∧ currentTemperature - targetTemperature ≥ 3 * (5 / 9) then
      ⟨some Command.deactivate, some now⟩
    else if targetTemperature - currentTemperature ≥ 1 * (5 / 9) ∧
        ¬ compressorDelay lastOff now then
      ⟨some Command.activate, none⟩
    else ⟨none, none⟩
  else if mode = 2 then
    if pin ∧ targetTemperature - currentTemperature ≥ 2 * (5 / 9) then
      ⟨some Command.deactivate, some now⟩
    else if currentTemperature - targetTemperature ≥ 1 * (5 / 9) ∧
        ¬ compressorDelay lastOff now then
      ⟨some Command.activate, none⟩
    else ⟨none, none⟩
  else
    ⟨none, none⟩

/-- From the trailing `setState` call of the handler
(platformAccessory.ts:288-291): the stored `LastOff` becomes
`lastOff || this.state.LastOff`, that is, the local variable when the
handler assigned it and the previous stored value otherwise. -/
def lastOffAfter (d : Decision) (prevLastOff : Int) : Int :=
  d.newLastOff.getD prevLastOff

/-- Shared helper: the guard blocks exactly while less than four minutes
have elapsed since `lastOff`. -/
theorem compressorDelay_false_iff (lastOff now : Int) :
    compressorDelay lastOff now = false ↔ now - lastOff ≥ fourMinutesMs := by
  simp only [compressorDelay, fourMinutesMs, decide_eq_false_iff_not, not_lt, ge_iff_le]
  omega

/-- C1: in Heat mode with the actuator inactive, a shortfall of at least
5/9 degrees Celsius and the compressor guard permitting (four minutes or
more since the last deactivation), the handler commands activate. -/
theorem heat_inactive_activates (current target : ℚ) (lastOff now : Int)
    (hT : target - current ≥ 5 / 9) (hG : now - lastOff ≥ fourMinutesMs) :
    (handleCurrentTemperature 1 current target false lastOff now).command
      = some Command.activate := by
  have hd : compressorDelay lastOff now = false :=
    (compressorDelay_false_iff lastOff now).mpr hG
  have h5 : (5 : ℚ) / 9 ≤ target - current := by linarith
  simp [handleCurrentTemperature, hd, h5]

/-- Witness for C1 at Scenario A of the specification: target 22, current
20, actuator off, last deactivation ten minutes ago. -/
theorem heat_inactive_activates_w :
    (handleCurrentTemperature 1 20 22 false 0 600000).command
      = some Command.activate :=
  heat_inactive_activates 20 22 0 600000 (by norm_num)
    (by norm_num [fourMinutesMs])

/-- C2: in Heat mode with the actuator active and an overshoot of at least
3 times 5/9 degrees Celsius, the handler commands deactivate and sets the
stored lastOff to the decision instant. -/
theorem heat_active_deactivates (current target : ℚ) (lastOff now : Int)
    (hT : current - target ≥ 3 * (5 / 9)) :
    (handleCurrentTemperature 1 current target true lastOff now).command
        = some Command.deactivate ∧
      (handleCurrentTemperature 1 current target true lastOff now).newLastOff
        = some now ∧
      lastOffAfter (handleCurrentTemperature 1 current target true lastOff now)
        lastOff = now := by
  simp [handleCurrentTemperature, lastOffAfter, hT]

/-- Witness for C2: current 30, target 25, actuator on. -/
theorem heat_active_deactivates_w :
    (handleCurrentTemperature 1 30 25 true 0 1000).command
        = some Command.deactivate ∧
      (handleCurrentTemperature 1 30 25 true 0 1000).newLastOff = some 1000 ∧
      lastOffAfter (handleCurrentTemperature 1 30 25 true 0 1000) 0 = 1000 :=
  heat_active_deactivates 30 25 0 1000 (by norm_num)

/-- C3: the compressor guard permits activation (returns false) exactly
when four or more minutes have passed since lastOff; it blocks whenever
less than four minutes have passed, and at exactly four minutes it
permits (boundary inclusive). -/
theorem compressorDelay_boundary (lastOff now : Int) :
    (compressorDelay lastOff now = false ↔ now - lastOff ≥ fourMinutesMs) ∧
      (now - lastOff < fourMinutesMs → compressorDelay lastOff now = true) ∧
      compressorDelay lastOff (lastOff + fourMinutesMs) = false := by
  refine ⟨compressorDelay_false_iff lastOff now, ?_, ?_⟩
  · intro h
    simp only [compressorDelay, decide_eq_true_eq]
    omega
  · exact (compressorDelay_false_iff lastOff (lastOff + fourMinutesMs)).mpr (by omega)

/-- Witness for C3 at the exact boundary: lastOff 0, now 240000. -/
theorem compressorDelay_boundary_w :
    compressorDelay 0 240000 = false :=
  (compressorDelay_boundary 0 240000).1.mpr (by norm_num [fourMinutesMs])

/-- C4: in Off mode the handler never commands activate, and whenever the
actuator is active it commands deactivate and sets lastOff to now. -/
theorem off_never_activates (current target : ℚ) (pin : Bool) (lastOff now : Int) :
    (handleCurrentTemperature 0 current target pin lastOff now).command
        ≠ some Command.activate ∧
      (pin = true →
        (handleCurrentTemperature 0 current target pin lastOff now).command
            = some Command.deactivate ∧
          (handleCurrentTemperature 0 current target pin lastOff now).newLastOff
            = some now) := by
  cases pin <;> simp [handleCurrentTemperature]

/-- Witness for C4: actuator on, arbitrary temperatures. -/
theorem off_never_activates_w :
    (handleCurrentTemperature 0 10 40 true 0 7).command = some Command.deactivate ∧
      (handleCurrentTemperature 0 10 40 true 0 7).newLastOff = some 7 :=
  (off_never_activates 10 40 true 0 7).2 rfl

/-- C5 counterexample: with mode 5 (outside Off, Heat, Cool, Auto) and the
actuator active, the handler issues no command and leaves lastOff alone,
whereas Off mode at the same inputs commands deactivate; so an unknown
mode is not treated as Off. -/
theorem invalid_mode_cex :
    (handleCurrentTemperature 5 25 25 true 0 240000).command = none ∧
      (handleCurrentTemperature 5 25 25 true 0 240000).newLastOff = none ∧
      (handleCurrentTemperature 0 25 25 true 0 240000).command
        = some Command.deactivate := by
  refine ⟨?_, ?_, ?_⟩ <;> rfl

/-- C5 amended: a mode value outside 0, 1, 2 (Off, Heat, Cool) falls to
the default branch of the switch, the same branch as Auto: the handler
issues no command, leaves the pin and the stored lastOff unchanged, and
raises no exception. -/
theorem invalid_mode_noop (mode : Int) (current target : ℚ) (pin : Bool)
    (lastOff now : Int) (h0 : mode ≠ 0) (h1 : mode ≠ 1) (h2 : mode ≠ 2) :
    (handleCurrentTemperature mode current target pin lastOff now).command = none ∧
      (handleCurrentTemperature mode current target pin lastOff now).newLastOff
        = none ∧
      lastOffAfter (handleCurrentTemperature mode current target pin lastOff now)
        lastOff = lastOff := by
  simp [handleCurrentTemperature, lastOffAfter, h0, h1, h2]

/-- Witness for the amended C5 at mode 5. -/
theorem invalid_mode_noop_w :
    (handleCurrentTemperature 5 20 30 true 0 240000).command = none ∧
      (handleCurrentTemperature 5 20 30 true 0 240000).newLastOff = none ∧
      lastOffAfter (handleCurrentTemperature 5 20 30 true 0 240000) 0 = 0 :=
  invalid_mode_noop 5 20 30 true 0 240000 (by norm_num) (by norm_num) (by norm_num)

/-- C6: Cool mode mirrors Heat with the inequalities reversed and the
deactivation threshold 2 times 5/9.  With the actuator active the handler
deactivates, setting lastOff to now, exactly when
targetTemp - currentTemp reaches 2 times 5/9; with the actuator inactive
it activates exactly when currentTemp - targetTemp reaches 1 times 5/9
and the guard permits; and at Scenario B of the specification (target 24,
current 22.9, actuator on, lastOff one minute ago) no command is issued. -/
theorem cool_symmetric (current target : ℚ) (lastOff now : Int) :
    ((handleCurrentTemperature 2 current target true lastOff now).command
          = some Command.deactivate ∧
        (handleCurrentTemperature 2 current target true lastOff now).newLastOff
          = some now
      ↔ target - current ≥ 2 * (5 / 9)) ∧
    ((handleCurrentTemperature 2 current target false lastOff now).command
          = some Command.activate
      ↔ current - target ≥ 1 * (5 / 9) ∧ now - lastOff ≥ fourMinutesMs) ∧
    (handleCurrentTemperature 2 (229 / 10) 24 true 0 60000).command = none := by
  refine ⟨?_, ?_, ?_⟩
  · simp only [handleCurrentTemperature]
    norm_num
    split_ifs with h1 h2 <;> simp [h1]
  · simp only [handleCurrentTemperature]
    norm_num
    split_ifs with h2
    · constructor
      · intro _
        exact ⟨h2.1, (compressorDelay_false_iff lastOff now).mp h2.2⟩
      · intro _
        rfl
    · constructor
      · intro hfalse
        exact absurd hfalse (by simp)
      · rintro ⟨ha, hb⟩
        exact absurd ⟨ha, (compressorDelay_false_iff lastOff now).mpr hb⟩ h2
  · norm_num [handleCurrentTemperature]

/-- Witness for C6: actuator on, target 30, current 25, deactivation
threshold met. -/
theorem cool_symmetric_w :
    (handleCurrentTemperature 2 25 30 true 0 60000).command
        = some Command.deactivate ∧
      (handleCurrentTemperature 2 25 30 true 0 60000).newLastOff = some 60000 :=
  ((cool_symmetric 25 30 0 60000).1).mpr (by norm_num)

/-- From `celsiusToFahrenheit` (platformAccessory.ts:294-296). -/
def celsiusToFahrenheit (temperature : ℚ) : ℚ :=
  temperature * 1.8 + 32

/-- From `fahrenheitToCelsius` (platformAccessory.ts:304-306). -/
def fahrenheitToCelsius (temperature : ℚ) : ℚ :=
  (temperature - 32) / 1.8

/-- JavaScript `Math.round`: the half is rounded toward positive
infinity. -/
def jsRound (q : ℚ) : Int :=
  ⌊q + 1 / 2⌋

/-- From `unroundTemperature` (platformAccessory.ts:466-479), with the
display unit passed in as `usesF`.  The second source branch is guarded by
`this.usesFahrenheit && !this.usesFahrenheit()`: the call returns a
Promise object, which is always truthy, so the negation is always false
and the branch computing `0.5 * Math.round(2 * temperature)` is dead; in
Celsius mode the function falls through to `return temperature`. -/
def unroundTemperature (usesF : Bool) (temperature : ℚ) : ℚ :=
  if usesF then
    fahrenheitToCelsius ((jsRound (celsiusToFahrenheit temperature) : Int) : ℚ)
  else if false then
    (1 / 2) * ((jsRound (2 * temperature) : Int) : ℚ)
  else
    temperature

/-- Shared helper: converting back and forth between the units is exact
on rationals. -/
theorem celsiusToFahrenheit_fahrenheitToCelsius (x : ℚ) :
    celsiusToFahrenheit (fahrenheitToCelsius x) = x := by
  unfold celsiusToFahrenheit fahrenheitToCelsius
  have h18 : (1.8 : ℚ) ≠ 0 := by norm_num
  field_simp

/-- Shared helper: rounding an integer changes nothing. -/
theorem jsRound_intCast (n : Int) : jsRound ((n : Int) : ℚ) = n := by
  unfold jsRound
  rw [add_comm, Int.floor_add_int]
  norm_num [Int.floor_eq_zero_iff]

/-- C7: with Celsius as the display unit, `unroundTemperature` does not
round to the nearest half degree; at 25.3 degrees it returns 25.3
unchanged rather than 25.5, because the Celsius rounding branch of the
source is dead (its guard negates a Promise object).  The Fahrenheit
branch does behave as claimed: 25.3 degrees Celsius is 77.54 Fahrenheit,
rounded to 78 whole Fahrenheit degrees and converted back to 230/9. -/
theorem unroundTemperature_celsius_bug :
    unroundTemperature false (253 / 10) = 253 / 10 ∧
      (253 / 10 : ℚ) ≠ 51 / 2 ∧
      unroundTemperature true (253 / 10) = (78 - 32) / 1.8 := by
  refine ⟨rfl, by norm_num, ?_⟩
  have h78 : jsRound (celsiusToFahrenheit (253 / 10)) = 78 := by
    unfold jsRound celsiusToFahrenheit
    rw [Int.floor_eq_iff]
    norm_num
  simp only [unroundTemperature, if_true]
  rw [h78]
  rfl

/-- C8: under the Fahrenheit display unit, `unroundTemperature` is
idempotent: its result sits on a whole-Fahrenheit-degree boundary, and
rounding a whole degree again changes nothing. -/
theorem unroundTemperature_fahrenheit_idempotent (v : ℚ) :
    unroundTemperature true (unroundTemperature true v)
      = unroundTemperature true v := by
  simp only [unroundTemperature, if_true]
  rw [celsiusToFahrenheit_fahrenheitToCelsius, jsRound_intCast]

/-- Witness for C8 at 25.3 degrees Celsius. -/
theorem unroundTemperature_fahrenheit_idempotent_w :
    unroundTemperature true (unroundTemperature true (253 / 10))
      = unroundTemperature true (253 / 10) :=
  unroundTemperature_fahrenheit_idempotent (253 / 10)

/-- The in-memory state record of the accessory
(platformAccessory.ts:26-35).  `LastOff` is kept as a millisecond
timestamp on the moment.js timeline (the source stores its string
rendering). -/
structure ThermostatState where
  CoolingThresholdTemperature : ℚ
  CurrentHeatingCoolingState : Int
  CurrentTemperature : ℚ
  HeatingThresholdTemperature : ℚ
  LastOff : Int
  TargetHeatingCoolingState : Int
  TargetTemperature : ℚ
  TemperatureDisplayUnits : Int
  deriving DecidableEq, Repr

/-- A partial update passed to `setState`: a JavaScript object literal
holding a subset of the state fields (`none` models an absent key). -/
structure StateUpdate where
  CoolingThresholdTemperature : Option ℚ
  CurrentHeatingCoolingState : Option Int
  CurrentTemperature : Option ℚ
  HeatingThresholdTemperature : Option ℚ
  LastOff : Option Int
  TargetHeatingCoolingState : Option Int
  TargetTemperature : Option ℚ
  TemperatureDisplayUnits : Option Int
  deriving DecidableEq, Repr

/-- The spread merge `{ ...this.state, ...state }` inside `setState`
(platformAccessory.ts:453): keys present in the update override, absent
keys keep the previous value. -/
def mergeState (s : ThermostatState) (u : StateUpdate) : ThermostatState where
  CoolingThresholdTemperature :=
    u.CoolingThresholdTemperature.getD s.CoolingThresholdTemperature
  CurrentHeatingCoolingState :=
    u.CurrentHeatingCoolingState.getD s.CurrentHeatingCoolingState
  CurrentTemperature := u.CurrentTemperature.getD s.CurrentTemperature
  HeatingThresholdTemperature :=
    u.HeatingThresholdTemperature.getD s.HeatingThresholdTemperature
  LastOff := u.LastOff.getD s.LastOff
  TargetHeatingCoolingState :=
    u.TargetHeatingCoolingState.getD s.TargetHeatingCoolingState
  TargetTemperature := u.TargetTemperature.getD s.TargetTemperature
  TemperatureDisplayUnits :=
    u.TemperatureDisplayUnits.getD s.TemperatureDisplayUnits

/-- From `setState` (platformAccessory.ts:452-459): the merged record is
assigned to `this.state` first; the persistence write runs inside a
try/catch whose catch only logs, so a failing write never touches the
assigned in-memory state.  The result pairs the in-memory state with the
record the store received (none when the write failed). -/
def setState (s : ThermostatState) (u : StateUpdate) (persistFails : Bool) :
    ThermostatState × Option ThermostatState :=
  let merged := mergeState s u
  (merged, if persistFails then none else some merged)

/-- From `usesFahrenheit` (platformAccessory.ts:481-483):
`TemperatureDisplayUnits` equals the FAHRENHEIT constant 1. -/
def usesFahrenheit (s : ThermostatState) : Bool :=
  decide (s.TemperatureDisplayUnits = 1)

/-- From `getCurrentTemperature` (platformAccessory.ts:183-187). -/
def getCurrentTemperature (s : ThermostatState) : ℚ :=
  unroundTemperature (usesFahrenheit s) s.CurrentTemperature

/-- From `getTargetHeatingCoolingState` (platformAccessory.ts:195-199). -/
def getTargetHeatingCoolingState (s : ThermostatState) : Int :=
  s.TargetHeatingCoolingState

/-- From `getTargetTemperature` (platformAccessory.ts:201-210): the OFF
case (constant 0) answers with the current temperature getter, every
other mode with the unrounded stored target. -/
def getTargetTemperature (s : ThermostatState) : ℚ :=
  if getTargetHeatingCoolingState s = 0 then
    getCurrentTemperature s
  else
    unroundTemperature (usesFahrenheit s) s.TargetTemperature

/-- C9: the merge behind `setState` takes the update value for every
field present in the partial update and keeps the previous value for
every absent field; the in-memory result is the same whether or not the
persistence write fails (no rollback), and a successful write persists
exactly the merged record. -/
theorem setState_merge_frame (s : ThermostatState) (u : StateUpdate) (b : Bool) :
    (setState s u b).1 = mergeState s u ∧
      (setState s u true).1 = (setState s u false).1 ∧
      (setState s u false).2 = some (mergeState s u) ∧
      (setState s u true).2 = none ∧
      (∀ v, u.CoolingThresholdTemperature = some v →
        (mergeState s u).CoolingThresholdTemperature = v) ∧
      (u.CoolingThresholdTemperature = none →
        (mergeState s u).CoolingThresholdTemperature
          = s.CoolingThresholdTemperature) ∧
      (∀ v, u.CurrentHeatingCoolingState = some v →
        (mergeState s u).CurrentHeatingCoolingState = v) ∧
      (u.CurrentHeatingCoolingState = none →
        (mergeState s u).CurrentHeatingCoolingState
          = s.CurrentHeatingCoolingState) ∧
      (∀ v, u.CurrentTemperature = some v →
        (mergeState s u).CurrentTemperature = v) ∧
      (u.CurrentTemperature = none →
        (mergeState s u).CurrentTemperature = s.CurrentTemperature) ∧
      (∀ v, u.HeatingThresholdTemperature = some v →
        (mergeState s u).HeatingThresholdTemperature = v) ∧
      (u.HeatingThresholdTemperature = none →
        (mergeState s u).HeatingThresholdTemperature
          = s.HeatingThresholdTemperature) ∧
      (∀ v, u.LastOff = some v → (mergeState s u).LastOff = v) ∧
      (u.LastOff = none → (mergeState s u).LastOff = s.LastOff) ∧
      (∀ v, u.TargetHeatingCoolingState = some v →
        (mergeState s u).TargetHeatingCoolingState = v) ∧
      (u.TargetHeatingCoolingState = none →
        (mergeState s u).TargetHeatingCoolingState
          = s.TargetHeatingCoolingState) ∧
      (∀ v, u.TargetTemperature = some v →
        (mergeState s u).TargetTemperature = v) ∧
      (u.TargetTemperature = none →
        (mergeState s u).TargetTemperature = s.TargetTemperature) ∧
      (∀ v, u.TemperatureDisplayUnits = some v →
        (mergeState s u).TemperatureDisplayUnits = v) ∧
      (u.TemperatureDisplayUnits = none →
        (mergeState s u).TemperatureDisplayUnits
          = s.TemperatureDisplayUnits) := by
  refine ⟨rfl, rfl, rfl, rfl, ?_, ?_, ?_, ?_, ?_, ?_, ?_, ?_, ?_, ?_, ?_,
    ?_, ?_, ?_, ?_, ?_⟩ <;>
    first
      | (intro v h; simp [mergeState, h])
      | (intro h; simp [mergeState, h])

/-- A concrete pre-state used by the witnesses. -/
def exampleState : ThermostatState :=
  ⟨25, 0, 25, 25, 0, 0, 25, 0⟩

/-- A concrete partial update used by the C9 witness: it carries a new
current temperature and leaves every other field absent. -/
def exampleUpdate : StateUpdate :=
  ⟨none, none, some 21, none, none, none, none, none⟩

/-- Witness for C9: the merged in-memory state takes the updated current
temperature, keeps the old target temperature, and is unaffected by a
failing persistence write. -/
theorem setState_merge_frame_w :
    (mergeState exampleState exampleUpdate).CurrentTemperature = 21 ∧
      (mergeState exampleState exampleUpdate).TargetTemperature
        = exampleState.TargetTemperature ∧
      (setState exampleState exampleUpdate true).1
        = (setState exampleState exampleUpdate false).1 := by
  have h := setState_merge_frame exampleState exampleUpdate true
  exact ⟨h.2.2.2.2.2.2.2.2.1 21 rfl, h.2.2.2.2.2.2.2.2.2.2.2.2.2.2.2.2.2.1 rfl,
    h.2.1⟩

/-- C10: when the mode is Off (0), the public target-temperature getter
answers with the unrounded current temperature instead of the stored
setpoint; in every other mode it answers with the unrounded stored
target setpoint. -/
theorem getTargetTemperature_off_returns_current (s : ThermostatState) :
    (s.TargetHeatingCoolingState = 0 →
      getTargetTemperature s
        = unroundTemperature (usesFahrenheit s) s.CurrentTemperature) ∧
      (s.TargetHeatingCoolingState ≠ 0 →
        getTargetTemperature s
          = unroundTemperature (usesFahrenheit s) s.TargetTemperature) := by
  constructor <;> intro h <;>
    simp [getTargetTemperature, getTargetHeatingCoolingState,
      getCurrentTemperature, h]

/-- Witness for C10 at the example state, whose mode is Off. -/
theorem getTargetTemperature_off_returns_current_w :
    getTargetTemperature exampleState
      = unroundTemperature (usesFahrenheit exampleState)
          exampleState.CurrentTemperature :=
  (getTargetTemperature_off_returns_current exampleState).1 rfl

end HomebridgeThermostat
